import Mathlib

/-
  Verification of the authentication and authorization subsystem of the
  multi-tenant SaaS backend: JWT access/refresh token lifecycle, refresh
  token rotation with server-side invalidation, and the composite
  role/workspace/permission authorization guard.

  The definitions below are shallow embeddings of the TypeScript sources:
    - packages/utils/src/type-guards (isEmail, isUUID, isNonEmptyString, ...)
    - apps/api/src/shared/cache/cache.service.ts (CacheService)
    - apps/api/src/modules/user/user.service.ts (UserService)
    - the basic AuthService (register/login/refreshToken/logout/
      generateTokens/verifyRefreshToken/storeRefreshToken)
    - the enhanced AuthService refreshToken variant
    - the JwtStrategy access path
    - apps/api/src/shared/auth/guards/composite-auth.guard.ts
    - packages/utils/src/nestjs/guards.ts (WorkspacePermissionGuard)

  External collaborators that are not part of the repository (the JWT
  library sign/verify, bcrypt, the Redis backend of the cache manager) are
  modelled from the spec; each such definition carries a doc comment
  starting with "Modelled from the spec:".

  Asynchronous I/O is embedded as explicit state passing: every operation
  takes the database and cache store as arguments and returns the updated
  store.  Fallible operations return Except AppError.
-/

namespace AiBackend

/-! ## Type guards (packages/utils type-guards)

The runtime dynamic-type checks (isString, isObject, isArray, ...) are
vacuously true on the typed Lean values and are noted in comments where a
source guard performs them; the content-bearing checks (isEmail, isUUID,
isNonEmptyString) are embedded below. -/

/-- The character class matched by the JavaScript regex escape backslash-s,
restricted to its ASCII members (all inputs considered here are ASCII). -/
def isJsSpace (c : Char) : Bool :=
  c = ' ' || c = '\t' || c = '\n' || c = '\x0d' || c = '\x0b' || c = '\x0c'

/-- A character admissible in a chunk of the email regex: anything that is
neither whitespace nor the at sign. -/
def emailChunkChar (c : Char) : Bool :=
  !(isJsSpace c) && c ≠ '@'

/-- Splitting of a character list at every occurrence of a separator,
the char-list counterpart of the string split used by the regex
embeddings below (structural recursion, so that every proof can
evaluate it). -/
def splitOnChar (sep : Char) : List Char → List (List Char)
  | [] => [[]]
  | c :: rest =>
      match splitOnChar sep rest with
      | [] => if c = sep then [[], []] else [[c]]
      | h :: t => if c = sep then [] :: h :: t else (c :: h) :: t

/-- isEmail from type-guards: the string matches
the anchored regex "one or more non-space-non-at, at sign, one or more
non-space-non-at, dot, one or more non-space-non-at".  Because the
character classes exclude the at sign, a match has exactly one at sign,
and after it the dot may sit anywhere except the first or last position
of the remainder. -/
def isEmail (s : String) : Bool :=
  match splitOnChar '@' s.data with
  | [localPart, domainPart] =>
      localPart ≠ [] &&
      localPart.all emailChunkChar &&
      domainPart.all emailChunkChar &&
      ((domainPart.drop 1).dropLast).contains '.'
  | _ => false

/-- A hexadecimal digit (the i-flag on the source regex makes it case
insensitive). -/
def isHexChar (c : Char) : Bool :=
  ('0' ≤ c && c ≤ '9') || ('a' ≤ c && c ≤ 'f') || ('A' ≤ c && c ≤ 'F')

/-- isUUID from type-guards: the string matches the anchored case
insensitive regex hex8-hex4-[1-5]hex3-[89ab]hex3-hex12.  Splitting on the
dash is equivalent because the hex class excludes the dash. -/
def isUUID (s : String) : Bool :=
  match splitOnChar '-' s.data with
  | [g1, g2, g3, g4, g5] =>
      g1.length = 8 && g1.all isHexChar &&
      g2.length = 4 && g2.all isHexChar &&
      g3.length = 4 && g3.all isHexChar &&
      (match g3 with
       | c :: _ => '1' ≤ c && c ≤ '5'
       | [] => false) &&
      g4.length = 4 && g4.all isHexChar &&
      (match g4 with
       | c :: _ => c = '8' || c = '9' || c = 'a' || c = 'b' || c = 'A' || c = 'B'
       | [] => false) &&
      g5.length = 12 && g5.all isHexChar
  | _ => false

/-- isNonEmptyString from type-guards: the value is a string (type level
here) whose trimmed form is nonempty — equivalently, some character of
the string is not whitespace. -/
def isNonEmptyString (s : String) : Bool :=
  s.data.any (fun c => !(isJsSpace c))

/-! ## Error taxonomy

NestJS exceptions as they are raised by the embedded code.  The
constructors keep the constructor argument of the source exception: a
bare message string, or the structured body used by the enhanced
variants.  The timestamp field of the structured bodies is omitted: it
is wall-clock noise, never part of any content comparison here (keeping
it would only make any two bodies differ). -/

/-- The structured body passed to NestJS exceptions by the enhanced
variants (statusCode, message, errors; timestamp omitted, see above). -/
structure ErrBody where
  statusCode : Nat
  message : String
  errors : List String
deriving DecidableEq

/-- Errors crossing the service boundary. -/
inductive AppError where
  | unauthenticated (msg : String)
  | unauthenticatedBody (body : ErrBody)
  | forbidden (msg : String)
  | forbiddenBody (body : ErrBody)
  | badRequest (msg : String)
  | conflict (msg : String)
  | internal (msg : String)
deriving DecidableEq

/-- Whether an error is in the 401 class (UnauthorizedException). -/
def AppError.isUnauthClass : AppError → Bool
  | .unauthenticated _ => true
  | .unauthenticatedBody _ => true
  | _ => false

/-! ## Token model -/

/-- The type discriminator of a JWT payload: access or refresh. -/
inductive TokenType where
  | access
  | refresh
deriving DecidableEq

/-- The JWT payload as built by AuthService.generateTokens:
sub, email, role, type. -/
structure JwtPayload where
  sub : String
  email : String
  role : String
  type : TokenType
deriving DecidableEq

/-- Modelled from the spec: a Token Codec token is a signed, expiring,
tamper-evident carrier of a payload.  The compact JWT string is modelled
as this record: the claims payload, the issue time (iat claim, which
makes tokens issued at different instants distinct strings), the
absolute expiry, and whether the signature verifies against the server
secret.  Byte equality of two JWT strings corresponds to equality of
these records. -/
structure Token where
  payload : JwtPayload
  iat : Nat
  exp : Nat
  sigValid : Bool
deriving DecidableEq

/-- Modelled from the spec: Token Codec verify.  Fails (returns none) if
the signature is invalid or the token is past its expiry; otherwise
yields the payload.  The codec is kind-agnostic: no type check here. -/
def jwtVerify (t : Token) (now : Nat) : Option JwtPayload :=
  if t.sigValid && decide (now < t.exp) then some t.payload else none

/-- Modelled from the spec: Token Codec issue.  Signs the payload with
the server secret (signature valid by construction) and sets
expiry = now + ttl. -/
def jwtSign (p : JwtPayload) (now ttl : Nat) : Token :=
  { payload := p, iat := now, exp := now + ttl, sigValid := true }

/-! ## Credential store model -/

/-- A persisted user row (id, email, name, password hash, role). -/
structure UserRec where
  id : String
  email : String
  name : String
  password : String
  role : String
deriving DecidableEq

/-- The UserResponseDto shape: a user row without the password hash. -/
structure UserResp where
  id : String
  email : String
  name : String
  role : String
deriving DecidableEq

/-- Projection of a row to its response DTO. -/
def UserRec.toResp (u : UserRec) : UserResp :=
  { id := u.id, email := u.email, name := u.name, role := u.role }

/-- The relational store consumed through the ORM. -/
structure Db where
  users : List UserRec
deriving DecidableEq

/-- findUnique on the primary key. -/
def Db.findUniqueById (db : Db) (id : String) : Option UserRec :=
  db.users.find? (fun u => u.id == id)

/-- findUnique on the unique email column. -/
def Db.findUniqueByEmail (db : Db) (email : String) : Option UserRec :=
  db.users.find? (fun u => u.email == email)

/-- Modelled from the spec: the Credential Store password hash (bcrypt
with the cost factor recorded in the hash).  The hash function itself is
external to the repository; it is modelled as a deterministic injective
tagging of the plaintext, which preserves exactly the property the code
relies on: compare(plain, hash) succeeds iff hash was produced from
plain. -/
def bcryptHash (cost : Nat) (plain : String) : String :=
  "bcrypt$" ++ toString cost ++ "$" ++ plain

/-- Modelled from the spec: Credential Store comparePassword. -/
def bcryptCompare (plain hashed : String) : Bool :=
  hashed == bcryptHash 12 plain

/-! ## Token Cache

The single Redis-backed key-value store behind CacheService.  The store
holds values of any type (the source type is any); the two value shapes
this subsystem ever writes are a refresh token and a cached user DTO.
TTL-based eviction of the external store is not modelled; no claim
depends on entries expiring.  The backend may fail per operation kind
(the fail flags); CacheService wraps every backend call in try/catch and
swallows the failure (get returns null, set and del leave the store
unchanged), exactly as cache.service.ts does. -/

/-- A value held in the cache: a refresh token string or a cached user
response object. -/
inductive CacheVal where
  | tok (t : Token)
  | usr (u : UserResp)
deriving DecidableEq

/-- The cache store: association data plus failure flags of the external
backend for each operation kind. -/
structure Store where
  data : List (String × CacheVal)
  failGet : Bool
  failSet : Bool
  failDel : Bool
deriving DecidableEq

/-- Raw association lookup of the backend. -/
def Store.lookup (s : Store) (k : String) : Option CacheVal :=
  (s.data.find? (fun p => p.1 == k)).map (fun p => p.2)

/-- CacheService.generateKey: the prefix and the parts joined with
colons. -/
def generateKey (pre : String) (parts : List String) : String :=
  pre ++ ":" ++ String.intercalate ":" parts

/-- CacheService.get: backend get inside try/catch; an error is logged
and null returned.  The source also maps falsy stored values to null;
the values stored here are never falsy. -/
def CacheService.get (s : Store) (k : String) : Option CacheVal :=
  if s.failGet then none else s.lookup k

/-- CacheService.set: backend set inside try/catch; an error is logged
and swallowed, leaving the store unchanged.  On success the key is
overwritten (last writer wins).  The ttl argument is accepted as in the
source and ignored by the model (see the Store comment). -/
def CacheService.set (s : Store) (k : String) (v : CacheVal) (_ttl : Option Nat) : Store :=
  if s.failSet then s
  else { s with data := (k, v) :: s.data.filter (fun p => p.1 != k) }

/-- CacheService.del: backend del inside try/catch; an error is logged
and swallowed.  Deleting an absent key is a no-op of the backend, not an
error. -/
def CacheService.del (s : Store) (k : String) : Store :=
  if s.failDel then s
  else { s with data := s.data.filter (fun p => p.1 != k) }

/-- The typed read CacheService.get of a token value.  In the source
the generic parameter of get is an unchecked cast; the key discipline of
the subsystem stores only token values under refresh token keys, so the
match below is equivalent. -/
def CacheService.getTok (s : Store) (k : String) : Option Token :=
  match CacheService.get s k with
  | some (.tok t) => some t
  | _ => none

/-- The typed read CacheService.get of a cached user value (same cast
remark as for getTok). -/
def CacheService.getUsr (s : Store) (k : String) : Option UserResp :=
  match CacheService.get s k with
  | some (.usr u) => some u
  | _ => none

/-! ## UserService (apps/api/src/modules/user/user.service.ts) -/

/-- The cache key of a user DTO: generateKey of the user cache tag with
parts id and the user id. -/
def userCacheKey (id : String) : String :=
  generateKey "user" ["id", id]

/-- UserService.findById: reject a non-UUID id with BadRequest; then try
the cache; on a miss query the database, cache a hit for five minutes,
and return it (none when the row is absent).  The database itself is
infallible in this model, so the only error is the BadRequest of the
UUID check. -/
def UserService.findById (db : Db) (s : Store) (id : String) :
    Except AppError (Option UserResp × Store) :=
  if !isUUID id then .error (.badRequest "Invalid user ID format")
  else
    match CacheService.getUsr s (userCacheKey id) with
    | some cached => .ok (some cached, s)
    | none =>
      match db.findUniqueById id with
      | none => .ok (none, s)
      | some u =>
          .ok (some u.toResp,
               CacheService.set s (userCacheKey id) (.usr u.toResp) (some 300))

/-- UserService.findByEmail: reject a malformed email with BadRequest,
else the database row (with password hash) or none. -/
def UserService.findByEmail (db : Db) (email : String) :
    Except AppError (Option UserRec) :=
  if !isEmail email then .error (.badRequest "Invalid email format")
  else .ok (db.findUniqueByEmail email)

/-- UserService.validatePassword: null for a malformed email, an empty
password, an unknown email, or a failed hash comparison; the user row
otherwise.  The email is validated before findByEmail is called, so the
BadRequest branch of findByEmail is unreachable here and the function is
total. -/
def UserService.validatePassword (db : Db) (email password : String) :
    Option UserRec :=
  if !isEmail email then none
  else if !isNonEmptyString password then none
  else
    match db.findUniqueByEmail email with
    | none => none
    | some u => if bcryptCompare password u.password then some u else none

/-- The register/create input: email, password, name.  The role field of
CreateUserDto is absent on the registration path, so
SafeParser getString of role yields its default USER. -/
structure RegisterDto where
  email : String
  password : String
  name : String
deriving DecidableEq

/-- UserService.create: SafeParser validation of email, name and
password (minimum length 8), Conflict when the email already exists,
bcrypt hash with cost 12, row insertion, and caching of the fresh DTO.
The fresh primary key generated by the database is passed in explicitly
as newId. -/
def UserService.create (db : Db) (s : Store) (dto : RegisterDto) (newId : String) :
    Except AppError (UserResp × Db × Store) :=
  if !isEmail dto.email then .error (.badRequest "Valid email is required")
  else if !isNonEmptyString dto.name then .error (.badRequest "Name is required")
  else if !(isNonEmptyString dto.password) || dto.password.length < 8 then
    .error (.badRequest "Password must be at least 8 characters")
  else if (db.findUniqueByEmail dto.email).isSome then
    .error (.conflict "User with this email already exists")
  else
    let row : UserRec :=
      { id := newId, email := dto.email, name := dto.name,
        password := bcryptHash 12 dto.password, role := "USER" }
    let db1 : Db := { users := db.users ++ [row] }
    let s1 := CacheService.set s (userCacheKey newId) (.usr row.toResp) (some 300)
    .ok (row.toResp, db1, s1)

/-! ## AuthService, basic variant

The Session Manager: register, login, refreshToken, logout,
generateTokens, verifyRefreshToken and the refresh record helpers. -/

/-- ACCESS_TOKEN_EXPIRES_IN, one hour. -/
def ACCESS_TOKEN_EXPIRES_IN : Nat := 3600

/-- REFRESH_TOKEN_EXPIRES_IN, seven days. -/
def REFRESH_TOKEN_EXPIRES_IN : Nat := 604800

/-- The cache key of the refresh record of a principal: generateKey of
the refresh token tag with the user id. -/
def refreshTokenKey (userId : String) : String :=
  generateKey "refresh_token" [userId]

/-- The TokenPair returned by generateTokens. -/
structure TokenPair where
  accessToken : Token
  refreshToken : Token
  expiresIn : Nat
deriving DecidableEq

/-- The AuthResponseDto: the token pair plus the principal DTO. -/
structure AuthResponse where
  accessToken : Token
  refreshToken : Token
  expiresIn : Nat
  user : UserResp
deriving DecidableEq

/-- AuthService.generateTokens: sign the payload (sub, email, role) once
with type access and the one hour ttl and once with type refresh and the
seven day ttl; expiresIn reports the access ttl. -/
def AuthService.generateTokens (u : UserResp) (now : Nat) : TokenPair :=
  { accessToken :=
      jwtSign { sub := u.id, email := u.email, role := u.role, type := .access }
        now ACCESS_TOKEN_EXPIRES_IN
  , refreshToken :=
      jwtSign { sub := u.id, email := u.email, role := u.role, type := .refresh }
        now REFRESH_TOKEN_EXPIRES_IN
  , expiresIn := ACCESS_TOKEN_EXPIRES_IN }

/-- AuthService.storeRefreshToken: CacheService.set of the refresh
record key with the refresh token ttl. -/
def AuthService.storeRefreshToken (s : Store) (userId : String) (t : Token) : Store :=
  CacheService.set s (refreshTokenKey userId) (.tok t) (some REFRESH_TOKEN_EXPIRES_IN)

/-- AuthService.getCachedRefreshToken: CacheService.get of the refresh
record key. -/
def AuthService.getCachedRefreshToken (s : Store) (userId : String) : Option Token :=
  CacheService.getTok s (refreshTokenKey userId)

/-- AuthService.removeRefreshToken: CacheService.del of the refresh
record key. -/
def AuthService.removeRefreshToken (s : Store) (userId : String) : Store :=
  CacheService.del s (refreshTokenKey userId)

/-- The type guard isValidJwtPayload of the basic variant checks that
sub, email and role are strings and type is access or refresh; on the
typed payload these checks are all vacuously true. -/
def isValidJwtPayload (_p : JwtPayload) : Bool := true

/-- The body of the try block of the basic
AuthService.verifyRefreshToken: jwt verify (a JsonWebTokenError when the
signature is invalid or the token is expired), the payload type guard,
then the type equals refresh check. -/
def AuthService.verifyRefreshTokenInner (t : Token) (now : Nat) :
    Except AppError JwtPayload :=
  match jwtVerify t now with
  | none => .error (.internal "JsonWebTokenError")
  | some p =>
      if !isValidJwtPayload p then .error (.unauthenticated "Invalid token payload")
      else if p.type ≠ .refresh then .error (.unauthenticated "Invalid token type")
      else .ok p

/-- The catch block replacing any error with a fixed one. -/
def catchAll (e : Except AppError α) (repl : AppError) : Except AppError α :=
  match e with
  | .ok a => .ok a
  | .error _ => .error repl

/-- The basic AuthService.verifyRefreshToken: the inner checks with a
catch-all that replaces every failure by Unauthorized with the message
Invalid refresh token. -/
def AuthService.verifyRefreshToken (t : Token) (now : Nat) :
    Except AppError JwtPayload :=
  catchAll (AuthService.verifyRefreshTokenInner t now)
    (.unauthenticated "Invalid refresh token")

/-- The try block of the basic AuthService.refreshToken: verify the
refresh token, load the user by payload.sub, require byte equality of
the presented token with the cached refresh record, then issue a new
pair and overwrite the record. -/
def AuthService.refreshTokenInner (db : Db) (s : Store) (t : Token) (now : Nat) :
    Except AppError (AuthResponse × Store) :=
  match AuthService.verifyRefreshToken t now with
  | .error e => .error e
  | .ok payload =>
    match UserService.findById db s payload.sub with
    | .error e => .error e
    | .ok (none, _) => .error (.unauthenticated "User not found")
    | .ok (some user, s1) =>
        if AuthService.getCachedRefreshToken s1 user.id ≠ some t then
          .error (.unauthenticated "Invalid refresh token")
        else
          let tokens := AuthService.generateTokens user now
          let s2 := AuthService.storeRefreshToken s1 user.id tokens.refreshToken
          .ok ({ accessToken := tokens.accessToken,
                 refreshToken := tokens.refreshToken,
                 expiresIn := tokens.expiresIn, user := user }, s2)

/-- The basic AuthService.refreshToken: the try block with a catch that
replaces every failure by Unauthorized with the message Invalid refresh
token. -/
def AuthService.refreshToken (db : Db) (s : Store) (t : Token) (now : Nat) :
    Except AppError (AuthResponse × Store) :=
  catchAll (AuthService.refreshTokenInner db s t now)
    (.unauthenticated "Invalid refresh token")

/-- The basic AuthService.login: validate the credentials (null means
Unauthorized with Invalid credentials), load the response DTO by id,
issue the pair, store the refresh record under the id of the validated
user.  The catch block of the source logs and rethrows unchanged. -/
def AuthService.login (db : Db) (s : Store) (email password : String) (now : Nat) :
    Except AppError (AuthResponse × Store) :=
  match UserService.validatePassword db email password with
  | none => .error (.unauthenticated "Invalid credentials")
  | some user =>
    match UserService.findById db s user.id with
    | .error e => .error e
    | .ok (none, _) => .error (.unauthenticated "User not found")
    | .ok (some userResponse, s1) =>
        let tokens := AuthService.generateTokens userResponse now
        let s2 := AuthService.storeRefreshToken s1 user.id tokens.refreshToken
        .ok ({ accessToken := tokens.accessToken,
               refreshToken := tokens.refreshToken,
               expiresIn := tokens.expiresIn, user := userResponse }, s2)

/-- The basic AuthService.register: create the user through UserService,
issue the pair, store the refresh record.  The catch block of the source
logs and rethrows unchanged. -/
def AuthService.register (db : Db) (s : Store) (dto : RegisterDto) (newId : String)
    (now : Nat) : Except AppError (AuthResponse × Db × Store) :=
  match UserService.create db s dto newId with
  | .error e => .error e
  | .ok (user, db1, s1) =>
      let tokens := AuthService.generateTokens user now
      let s2 := AuthService.storeRefreshToken s1 user.id tokens.refreshToken
      .ok ({ accessToken := tokens.accessToken,
             refreshToken := tokens.refreshToken,
             expiresIn := tokens.expiresIn, user := user }, db1, s2)

/-- The basic AuthService.logout: remove the refresh record.  The only
call inside the try block is removeRefreshToken, whose del swallows
every backend failure, so logout never raises. -/
def AuthService.logout (s : Store) (userId : String) : Except AppError Store :=
  .ok (AuthService.removeRefreshToken s userId)

/-! ## JwtStrategy access path (shared/auth/strategies) -/

/-- The object JwtStrategy.validate attaches to the request. -/
structure ValidatedUser where
  id : String
  email : String
  role : String
deriving DecidableEq

/-- JwtStrategy.validate: reject a payload whose type is not access,
load the user, return the id, email and role. -/
def JwtStrategy.validate (db : Db) (s : Store) (p : JwtPayload) :
    Except AppError (ValidatedUser × Store) :=
  if p.type ≠ .access then .error (.unauthenticated "Invalid token type")
  else
    match UserService.findById db s p.sub with
    | .error e => .error e
    | .ok (none, _) => .error (.unauthenticated "User not found")
    | .ok (some u, s1) => .ok ({ id := u.id, email := u.email, role := u.role }, s1)

/-- The full access token authentication path: passport verifies the
bearer token against the secret with ignoreExpiration false (per the
strategy configuration; the verification itself is the external
passport-jwt library, modelled by jwtVerify), then calls
JwtStrategy.validate on the payload. -/
def accessAuthenticate (db : Db) (s : Store) (t : Token) (now : Nat) :
    Except AppError (ValidatedUser × Store) :=
  match jwtVerify t now with
  | none => .error (.unauthenticated "Unauthorized")
  | some p => JwtStrategy.validate db s p

/-! ## AuthService, enhanced variant (the refreshToken of the second
auth service in the auth module sources)

Only the refresh path is needed by the claims.  Its input validation
(isString and nonempty trim) always passes on a well-formed compact JWT,
which is a nonempty string without whitespace, and trimming such a
string is the identity, so the Token argument models the trimmed
input. -/

/-- The enhanced isValidJwtPayload: hasProperty and isString checks are
vacuous on the typed payload; the content-bearing check is isUUID on
sub. -/
def Enhanced.isValidJwtPayload (p : JwtPayload) : Bool :=
  isUUID p.sub

/-- The enhanced verifyRefreshToken: jwt verify, the enhanced payload
guard, the type equals refresh check; each failure carries its own
structured 401 body, and the catch block rethrows UnauthorizedException
unchanged while wrapping the JsonWebTokenError of verifyAsync into the
expired-or-invalid body. -/
def Enhanced.verifyRefreshToken (t : Token) (now : Nat) :
    Except AppError JwtPayload :=
  match jwtVerify t now with
  | none =>
      .error (.unauthenticatedBody
        { statusCode := 401, message := "Token validation failed",
          errors := ["Token is expired or invalid"] })
  | some p =>
      if !Enhanced.isValidJwtPayload p then
        .error (.unauthenticatedBody
          { statusCode := 401, message := "Token validation failed",
            errors := ["Invalid token payload structure"] })
      else if p.type ≠ .refresh then
        .error (.unauthenticatedBody
          { statusCode := 401, message := "Token validation failed",
            errors := ["Invalid token type - expected refresh token"] })
      else .ok p

/-- The catch block of the enhanced refreshToken: UnauthorizedException
is rethrown unchanged, any other error is wrapped into the generic
refresh failure body. -/
def Enhanced.wrapRefreshError (e : AppError) : AppError :=
  if e.isUnauthClass then e
  else .unauthenticatedBody
    { statusCode := 401, message := "Token refresh failed",
      errors := ["Invalid refresh token"] }

/-- The try block of the enhanced refreshToken: verify, load the user by
payload.sub (User not found body when absent), require byte equality
with the cached record (invalid-or-expired body otherwise), then issue a
new pair and overwrite the record. -/
def Enhanced.refreshTokenInner (db : Db) (s : Store) (t : Token) (now : Nat) :
    Except AppError (AuthResponse × Store) :=
  match Enhanced.verifyRefreshToken t now with
  | .error e => .error e
  | .ok payload =>
    match UserService.findById db s payload.sub with
    | .error e => .error e
    | .ok (none, _) =>
        .error (.unauthenticatedBody
          { statusCode := 401, message := "User not found",
            errors := ["User associated with token no longer exists"] })
    | .ok (some user, s1) =>
        if AuthService.getCachedRefreshToken s1 user.id ≠ some t then
          .error (.unauthenticatedBody
            { statusCode := 401, message := "Token validation failed",
              errors := ["Refresh token is invalid or expired"] })
        else
          let tokens := AuthService.generateTokens user now
          let s2 := AuthService.storeRefreshToken s1 user.id tokens.refreshToken
          .ok ({ accessToken := tokens.accessToken,
                 refreshToken := tokens.refreshToken,
                 expiresIn := tokens.expiresIn, user := user }, s2)

/-- The enhanced AuthService.refreshToken: the try block with the
rethrow-or-wrap catch. -/
def Enhanced.refreshToken (db : Db) (s : Store) (t : Token) (now : Nat) :
    Except AppError (AuthResponse × Store) :=
  match Enhanced.refreshTokenInner db s t now with
  | .ok r => .ok r
  | .error e => .error (Enhanced.wrapRefreshError e)

/-! ## CompositeAuthGuard (shared/auth/guards/composite-auth.guard.ts) -/

/-- The operator field of the composite requirements: AND or ALL
combination versus OR or ANY. -/
inductive GOp where
  | and
  | or
deriving DecidableEq

/-- An entry of the workspaces list of an authenticated user. -/
structure WorkspaceEntry where
  id : String
  role : String
deriving DecidableEq

/-- The AuthenticatedUser shape of the utils guards: id, email, roles,
workspace memberships. -/
structure AuthUser where
  id : String
  email : String
  roles : List String
  workspaces : List WorkspaceEntry
deriving DecidableEq

/-- The isAuthenticatedUser type guard of the utils guards: the object,
string and array checks are vacuous on the typed value; the content
check is isUUID on the id. -/
def isAuthenticatedUser (u : AuthUser) : Bool :=
  isUUID u.id

/-- The transport request as the guards see it: the principal attached
by the authentication strategy (absent when no valid token ran) and the
path parameters. -/
structure GuardRequest where
  user : Option AuthUser
  params : List (String × String)

/-- The isAuthenticatedRequest guard of the utils common types: the
request has a truthy user property. -/
def isAuthenticatedRequest (r : GuardRequest) : Bool :=
  r.user.isSome

/-- A custom authorization condition over the principal and the request
context. -/
def AuthCondition : Type := AuthUser → GuardRequest → Bool

/-- The declarative composite requirements attached to an operation. -/
structure CompositeAuthRequirements where
  roles : Option (List String)
  permissions : Option (List String)
  workspaceRoles : Option (List String)
  conditions : Option (List AuthCondition)
  operator : Option GOp

/-- CompositeAuthGuard.checkRoles: false for a principal without roles;
otherwise every required role is held (AND) or some required role is
held (otherwise), the operator defaulting to OR when absent. -/
def CompositeAuthGuard.checkRoles (user : AuthUser) (requiredRoles : List String)
    (operator : Option GOp) : Bool :=
  if user.roles.isEmpty then false
  else
    match operator.getD .or with
    | .and => requiredRoles.all (fun role => user.roles.contains role)
    | .or => requiredRoles.any (fun role => user.roles.contains role)

/-- CompositeAuthGuard.checkWorkspaceRoles: false for a principal
without workspace memberships; otherwise the required roles are checked
against the roles the principal holds across all its workspaces (the
request workspace id plays no part), with the same AND versus default OR
combination. -/
def CompositeAuthGuard.checkWorkspaceRoles (user : AuthUser)
    (requiredRoles : List String) (operator : Option GOp) : Bool :=
  if user.workspaces.isEmpty then false
  else
    let userWorkspaceRoles := user.workspaces.map (fun w => w.role)
    match operator.getD .or with
    | .and => requiredRoles.all (fun role => userWorkspaceRoles.contains role)
    | .or => requiredRoles.any (fun role => userWorkspaceRoles.contains role)

/-- The static role to permission mapping of
CompositeAuthGuard.checkPermissions. -/
def rolePermissionMap (role : String) : List String :=
  if role = "ADMIN" then
    ["read", "write", "delete", "manage_users", "manage_workspaces"]
  else if role = "USER" then ["read", "write"]
  else if role = "OWNER" then
    ["read", "write", "delete", "manage_users", "manage_workspaces",
     "transfer_ownership"]
  else []

/-- CompositeAuthGuard.checkPermissions: expand the roles of the
principal through the static mapping, then the AND versus default OR
membership test. -/
def CompositeAuthGuard.checkPermissions (user : AuthUser)
    (requiredPermissions : List String) (operator : Option GOp) : Bool :=
  let userPermissions := (user.roles.map rolePermissionMap).flatten
  match operator.getD .or with
  | .and => requiredPermissions.all (fun p => userPermissions.contains p)
  | .or => requiredPermissions.any (fun p => userPermissions.contains p)

/-- CompositeAuthGuard.checkConditions: evaluate every predicate and
combine with AND as the default operator (the only method whose default
differs). -/
def CompositeAuthGuard.checkConditions (user : AuthUser)
    (conditions : List AuthCondition) (operator : Option GOp)
    (request : GuardRequest) : Bool :=
  let results := conditions.map (fun c => c user request)
  match operator.getD .and with
  | .and => results.all (fun r => r = true)
  | .or => results.any (fun r => r = true)

/-- The results list accumulated by CompositeAuthGuard.canActivate, in
source order: roles, workspaceRoles, permissions, conditions of the
requirements, then the decorator conditions (those combined with AND
regardless of the operator).  A present-but-empty list of a category is
truthy in the source and is therefore evaluated. -/
def CompositeAuthGuard.results (requirements : Option CompositeAuthRequirements)
    (conditions : Option (List AuthCondition)) (user : AuthUser)
    (request : GuardRequest) : List Bool :=
  (match requirements with
   | some r =>
     (match r.roles with
      | some rs => [CompositeAuthGuard.checkRoles user rs r.operator]
      | none => []) ++
     (match r.workspaceRoles with
      | some ws => [CompositeAuthGuard.checkWorkspaceRoles user ws r.operator]
      | none => []) ++
     (match r.permissions with
      | some ps => [CompositeAuthGuard.checkPermissions user ps r.operator]
      | none => []) ++
     (match r.conditions with
      | some cs => [CompositeAuthGuard.checkConditions user cs r.operator request]
      | none => [])
   | none => []) ++
  (match conditions with
   | some cs =>
       if cs.isEmpty then []
       else [CompositeAuthGuard.checkConditions user cs (some .and) request]
   | none => [])

/-- CompositeAuthGuard.canActivate: allow when neither requirements nor
decorator conditions are attached; demand an authenticated request and a
valid principal, both absences raising ForbiddenException; evaluate the
populated categories; combine with the top-level operator, AND when
absent; raise ForbiddenException when the combination is false. -/
def CompositeAuthGuard.canActivate (requirements : Option CompositeAuthRequirements)
    (conditions : Option (List AuthCondition)) (request : GuardRequest) :
    Except AppError Bool :=
  if requirements.isNone &&
     (match conditions with | none => true | some cs => cs.isEmpty) then
    .ok true
  else
    match request.user with
    | none => .error (.forbidden "Authentication required")
    | some user =>
      if !isAuthenticatedUser user then
        .error (.forbidden "Invalid user authentication")
      else
        let rs := CompositeAuthGuard.results requirements conditions user request
        let operator := (match requirements with
                         | some r => r.operator
                         | none => none).getD .and
        let finalResult := match operator with
                           | .and => rs.all (fun r => r = true)
                           | .or => rs.any (fun r => r = true)
        if !finalResult then .error (.forbidden "Insufficient permissions")
        else .ok true

/-! ## WorkspacePermissionGuard (packages/utils/src/nestjs/guards.ts) -/

/-- WorkspacePermissionGuard.canActivate: allow when no workspace role
metadata is attached; demand a valid principal (401 body); resolve the
workspace id from the path parameters and reject an absent or non-UUID
id (403 body, a deny rather than a skip); reject a principal without a
membership entry for that workspace; finally require the role of that
entry to be among the required ones. -/
def WorkspacePermissionGuard.canActivate (requiredRoles : Option (List String))
    (request : GuardRequest) : Except AppError Bool :=
  match requiredRoles with
  | none => .ok true
  | some rs =>
    if rs.isEmpty then .ok true
    else
      match request.user with
      | none =>
          .error (.unauthenticatedBody
            { statusCode := 401, message := "Authentication required",
              errors := ["User not authenticated"] })
      | some user =>
        if !isAuthenticatedUser user then
          .error (.unauthenticatedBody
            { statusCode := 401, message := "Authentication required",
              errors := ["User not authenticated"] })
        else
          let workspaceId :=
            (request.params.find? (fun p => p.1 == "workspaceId")).map (fun p => p.2)
          match workspaceId with
          | none =>
              .error (.forbiddenBody
                { statusCode := 403, message := "Invalid workspace",
                  errors := ["Workspace ID is required and must be valid UUID"] })
          | some wid =>
            if !isUUID wid then
              .error (.forbiddenBody
                { statusCode := 403, message := "Invalid workspace",
                  errors := ["Workspace ID is required and must be valid UUID"] })
            else
              match user.workspaces.find? (fun ws => ws.id == wid) with
              | none =>
                  .error (.forbiddenBody
                    { statusCode := 403, message := "Workspace access denied",
                      errors := ["User is not a member of this workspace"] })
              | some ws =>
                if rs.contains ws.role then .ok true
                else
                  .error (.forbiddenBody
                    { statusCode := 403,
                      message := "Insufficient workspace permissions",
                      errors := ["Required workspace roles: " ++
                                 String.intercalate ", " rs] })

/-- Whether a guard verdict is a 401-class error. -/
def errIsUnauthClass (r : Except AppError Bool) : Bool :=
  match r with
  | .error e => e.isUnauthClass
  | .ok _ => false

/-- The refresh records a store holds for a principal: the entries under
the refresh record key of that principal. -/
def recordEntries (s : Store) (uid : String) : List (String × CacheVal) :=
  s.data.filter (fun p => p.1 == refreshTokenKey uid)

/-- Store well-formedness: a user DTO cached under the user cache key of
an id carries that id.  Every write of the subsystem preserves this (see
the preservation lemmas below). -/
def StoreWF (s : Store) : Prop :=
  ∀ i u, s.lookup (userCacheKey i) = some (.usr u) → u.id = i

/-! ## Cache key facts -/

theorem data_append (s t : String) : (s ++ t).data = s.data ++ t.data := by
  cases s
  cases t
  rfl

theorem userCacheKey_data (i : String) :
    (userCacheKey i).data =
      'u' :: 's' :: 'e' :: 'r' :: ':' :: 'i' :: 'd' :: ':' :: i.data := by
  cases i
  rfl

theorem refreshTokenKey_data (j : String) :
    (refreshTokenKey j).data =
      'r' :: 'e' :: 'f' :: 'r' :: 'e' :: 's' :: 'h' :: '_' :: 't' :: 'o' ::
      'k' :: 'e' :: 'n' :: ':' :: j.data := by
  cases j
  rfl

theorem userCacheKey_ne_refreshTokenKey (i j : String) :
    userCacheKey i ≠ refreshTokenKey j := by
  intro h
  have h2 := congrArg String.data h
  rw [userCacheKey_data, refreshTokenKey_data] at h2
  simp at h2

theorem userCacheKey_inj (i j : String) (h : userCacheKey i = userCacheKey j) :
    i = j := by
  have h2 := congrArg String.data h
  rw [userCacheKey_data, userCacheKey_data] at h2
  simp at h2
  exact String.ext h2

/-! ## Store operation facts -/

theorem set_failSet (s : Store) (k : String) (v : CacheVal) (ttl : Option Nat) :
    (CacheService.set s k v ttl).failSet = s.failSet := by
  unfold CacheService.set
  split <;> rfl

theorem set_failGet (s : Store) (k : String) (v : CacheVal) (ttl : Option Nat) :
    (CacheService.set s k v ttl).failGet = s.failGet := by
  unfold CacheService.set
  split <;> rfl

theorem set_failDel (s : Store) (k : String) (v : CacheVal) (ttl : Option Nat) :
    (CacheService.set s k v ttl).failDel = s.failDel := by
  unfold CacheService.set
  split <;> rfl

theorem find?_filter_ne (l : List (String × CacheVal)) (k k' : String)
    (h : k' ≠ k) :
    (l.filter (fun p => p.1 != k)).find? (fun p => p.1 == k') =
      l.find? (fun p => p.1 == k') := by
  induction l with
  | nil => rfl
  | cons a t ih =>
      rw [List.filter_cons, List.find?_cons]
      cases hak : a.1 == k with
      | true =>
          have hp : a.1 = k := eq_of_beq hak
          have hkk' : (k == k') = false := beq_eq_false_iff_ne.mpr (Ne.symm h)
          simp [hak, hkk', hp, List.find?_cons, ih]
      | false =>
          have hp : ¬ a.1 = k := by simpa using hak
          cases hak' : a.1 == k' with
          | true => simp [hak, hak', hp, List.find?_cons]
          | false => simp [hak, hak', hp, List.find?_cons, ih]

theorem filter_eq_of_filter_ne (l : List (String × CacheVal)) (k k' : String)
    (h : k' ≠ k) :
    (l.filter (fun p => p.1 != k)).filter (fun p => p.1 == k') =
      l.filter (fun p => p.1 == k') := by
  induction l with
  | nil => rfl
  | cons a t ih =>
      rw [List.filter_cons, List.filter_cons]
      cases hak : a.1 == k with
      | true =>
          have hp : a.1 = k := eq_of_beq hak
          have hkk' : ¬ k = k' := Ne.symm h
          simp [hak, hkk', hp, List.filter_cons, ih]
      | false =>
          have hp : ¬ a.1 = k := by simpa using hak
          cases hak' : a.1 == k' with
          | true => simp [hak, hak', hp, List.filter_cons, ih]
          | false => simp [hak, hak', hp, List.filter_cons, ih]

theorem filter_self_of_filter_ne (l : List (String × CacheVal)) (k : String) :
    (l.filter (fun p => p.1 != k)).filter (fun p => p.1 == k) = [] := by
  induction l with
  | nil => rfl
  | cons a t ih =>
      rw [List.filter_cons]
      cases hak : a.1 == k with
      | true =>
          have hp : a.1 = k := eq_of_beq hak
          simp [hak, hp, ih]
      | false =>
          have hp : ¬ a.1 = k := by simpa using hak
          simp [hak, hp, List.filter_cons, ih]

theorem lookup_set_self (s : Store) (k : String) (v : CacheVal) (ttl : Option Nat)
    (h : s.failSet = false) :
    (CacheService.set s k v ttl).lookup k = some v := by
  simp [CacheService.set, h, Store.lookup, List.find?_cons]

theorem lookup_set_ne (s : Store) (k k' : String) (v : CacheVal) (ttl : Option Nat)
    (h : k' ≠ k) :
    (CacheService.set s k v ttl).lookup k' = s.lookup k' := by
  by_cases hf : s.failSet
  · simp [CacheService.set, hf]
  · have hb : (k == k') = false := beq_eq_false_iff_ne.mpr (Ne.symm h)
    simp [CacheService.set, hf, Store.lookup, List.find?_cons, hb,
          find?_filter_ne s.data k k' h]

theorem lookup_del_ne (s : Store) (k k' : String) (h : k' ≠ k) :
    (CacheService.del s k).lookup k' = s.lookup k' := by
  by_cases hf : s.failDel
  · simp [CacheService.del, hf]
  · simp [CacheService.del, hf, Store.lookup, find?_filter_ne s.data k k' h]

theorem lookup_del_self (s : Store) (k : String) (h : s.failDel = false) :
    (CacheService.del s k).lookup k = none := by
  simp only [CacheService.del, h, Bool.false_eq_true, if_false, Store.lookup]
  have hnone :
      (s.data.filter (fun p => p.1 != k)).find? (fun p => p.1 == k) = none := by
    rw [List.find?_eq_none]
    intro p hp
    have hmem := (List.mem_filter.mp hp).2
    simp at hmem
    simp [hmem]
  rw [hnone]
  rfl

theorem set_filter_self (s : Store) (k : String) (v : CacheVal) (ttl : Option Nat)
    (h : s.failSet = false) :
    (CacheService.set s k v ttl).data.filter (fun p => p.1 == k) = [(k, v)] := by
  simp [CacheService.set, h, List.filter_cons, filter_self_of_filter_ne]

theorem set_filter_ne (s : Store) (k k' : String) (v : CacheVal) (ttl : Option Nat)
    (h : k' ≠ k) :
    (CacheService.set s k v ttl).data.filter (fun p => p.1 == k') =
      s.data.filter (fun p => p.1 == k') := by
  by_cases hf : s.failSet
  · simp [CacheService.set, hf]
  · have hb : (k == k') = false := beq_eq_false_iff_ne.mpr (Ne.symm h)
    simp [CacheService.set, hf, List.filter_cons, hb,
          filter_eq_of_filter_ne s.data k k' h]

theorem del_filter_self (s : Store) (k : String) (h : s.failDel = false) :
    (CacheService.del s k).data.filter (fun p => p.1 == k) = [] := by
  simp [CacheService.del, h, filter_self_of_filter_ne]

/-! ## findById facts -/

theorem findById_shape (db : Db) (s : Store) (id : String) (uo : Option UserResp)
    (s1 : Store) (h : UserService.findById db s id = .ok (uo, s1)) :
    isUUID id = true ∧
    ((∃ u, CacheService.getUsr s (userCacheKey id) = some u ∧ uo = some u ∧
        s1 = s) ∨
     (CacheService.getUsr s (userCacheKey id) = none ∧
        db.findUniqueById id = none ∧ uo = none ∧ s1 = s) ∨
     (∃ row, CacheService.getUsr s (userCacheKey id) = none ∧
        db.findUniqueById id = some row ∧ uo = some row.toResp ∧
        s1 = CacheService.set s (userCacheKey id) (.usr row.toResp) (some 300))) := by
  unfold UserService.findById at h
  cases hu : isUUID id with
  | false =>
      rw [hu] at h
      simp at h
  | true =>
      rw [hu] at h
      simp at h
      refine ⟨rfl, ?_⟩
      cases hget : CacheService.getUsr s (userCacheKey id) with
      | some u =>
          rw [hget] at h
          simp at h
          exact Or.inl ⟨u, rfl, h.1.symm, h.2.symm⟩
      | none =>
          rw [hget] at h
          simp at h
          cases hdb : db.findUniqueById id with
          | none =>
              rw [hdb] at h
              simp at h
              exact Or.inr (Or.inl ⟨rfl, rfl, h.1.symm, h.2.symm⟩)
          | some row =>
              rw [hdb] at h
              simp at h
              exact Or.inr (Or.inr ⟨row, rfl, rfl, h.1.symm, h.2.symm⟩)

theorem findUniqueById_id (db : Db) (id : String) (u : UserRec)
    (h : db.findUniqueById id = some u) : u.id = id := by
  have hp := List.find?_some h
  exact eq_of_beq hp

theorem findUniqueByEmail_email (db : Db) (email : String) (u : UserRec)
    (h : db.findUniqueByEmail email = some u) : u.email = email := by
  have hp := List.find?_some h
  exact eq_of_beq hp

theorem getUsr_lookup (s : Store) (k : String) (u : UserResp)
    (h : CacheService.getUsr s k = some u) : s.lookup k = some (.usr u) := by
  unfold CacheService.getUsr CacheService.get at h
  cases hf : s.failGet with
  | true =>
      rw [hf] at h
      simp at h
  | false =>
      rw [hf] at h
      simp at h
      cases hl : s.lookup k with
      | none =>
          rw [hl] at h
          simp at h
      | some v =>
          rw [hl] at h
          cases v with
          | tok t => simp at h
          | usr u2 =>
              simp at h
              rw [h]

theorem findById_ok_id (db : Db) (s : Store) (id : String) (u : UserResp)
    (s1 : Store) (hwf : StoreWF s)
    (h : UserService.findById db s id = .ok (some u, s1)) : u.id = id := by
  rcases findById_shape db s id (some u) s1 h with ⟨-, hc⟩
  rcases hc with ⟨u2, hget, hu2, -⟩ | ⟨-, -, habs, -⟩ | ⟨row, -, hdb, hrow, -⟩
  · cases hu2
    exact hwf id u (getUsr_lookup s (userCacheKey id) u hget)
  · cases habs
  · cases hrow
    exact findUniqueById_id db id row hdb

theorem findById_refresh_lookup (db : Db) (s : Store) (id : String)
    (uo : Option UserResp) (s1 : Store)
    (h : UserService.findById db s id = .ok (uo, s1)) (j : String) :
    s1.lookup (refreshTokenKey j) = s.lookup (refreshTokenKey j) := by
  rcases findById_shape db s id uo s1 h with ⟨-, hc⟩
  rcases hc with ⟨u2, -, -, hs⟩ | ⟨-, -, -, hs⟩ | ⟨row, -, -, -, hs⟩
  · rw [hs]
  · rw [hs]
  · rw [hs]
    exact lookup_set_ne s (userCacheKey id) (refreshTokenKey j) _ _
      (fun e => userCacheKey_ne_refreshTokenKey id j e.symm)

theorem findById_refresh_filter (db : Db) (s : Store) (id : String)
    (uo : Option UserResp) (s1 : Store)
    (h : UserService.findById db s id = .ok (uo, s1)) (j : String) :
    s1.data.filter (fun p => p.1 == refreshTokenKey j) =
      s.data.filter (fun p => p.1 == refreshTokenKey j) := by
  rcases findById_shape db s id uo s1 h with ⟨-, hc⟩
  rcases hc with ⟨u2, -, -, hs⟩ | ⟨-, -, -, hs⟩ | ⟨row, -, -, -, hs⟩
  · rw [hs]
  · rw [hs]
  · rw [hs]
    exact set_filter_ne s (userCacheKey id) (refreshTokenKey j) _ _
      (fun e => userCacheKey_ne_refreshTokenKey id j e.symm)

theorem findById_flags (db : Db) (s : Store) (id : String)
    (uo : Option UserResp) (s1 : Store)
    (h : UserService.findById db s id = .ok (uo, s1)) :
    s1.failGet = s.failGet ∧ s1.failSet = s.failSet ∧ s1.failDel = s.failDel := by
  rcases findById_shape db s id uo s1 h with ⟨-, hc⟩
  rcases hc with ⟨u2, -, -, hs⟩ | ⟨-, -, -, hs⟩ | ⟨row, -, -, -, hs⟩
  · rw [hs]
    exact ⟨rfl, rfl, rfl⟩
  · rw [hs]
    exact ⟨rfl, rfl, rfl⟩
  · rw [hs]
    exact ⟨set_failGet s _ _ _, set_failSet s _ _ _, set_failDel s _ _ _⟩

/-! ## StoreWF preservation -/

theorem storeWF_set_usr (s : Store) (i0 : String) (u : UserResp) (ttl : Option Nat)
    (hwf : StoreWF s) (hu : u.id = i0) :
    StoreWF (CacheService.set s (userCacheKey i0) (.usr u) ttl) := by
  intro i u2 hl
  by_cases hk : userCacheKey i = userCacheKey i0
  · have hi : i = i0 := userCacheKey_inj i i0 hk
    by_cases hf : s.failSet
    · have : CacheService.set s (userCacheKey i0) (.usr u) ttl = s := by
        simp [CacheService.set, hf]
      rw [this] at hl
      exact hwf i u2 hl
    · rw [hk] at hl
      rw [lookup_set_self s _ _ _ (by simpa using hf)] at hl
      cases hl
      rw [hu, hi]
  · rw [lookup_set_ne s _ _ _ _ hk] at hl
    exact hwf i u2 hl

theorem storeWF_set_tok (s : Store) (j : String) (t : Token) (ttl : Option Nat)
    (hwf : StoreWF s) :
    StoreWF (CacheService.set s (refreshTokenKey j) (.tok t) ttl) := by
  intro i u2 hl
  rw [lookup_set_ne s _ _ _ _ (userCacheKey_ne_refreshTokenKey i j)] at hl
  exact hwf i u2 hl

theorem storeWF_del (s : Store) (k : String) (hwf : StoreWF s) :
    StoreWF (CacheService.del s k) := by
  intro i u2 hl
  by_cases hk : userCacheKey i = k
  · by_cases hf : s.failDel
    · have : CacheService.del s k = s := by
        simp [CacheService.del, hf]
      rw [this] at hl
      exact hwf i u2 hl
    · rw [hk] at hl
      rw [lookup_del_self s k (by simpa using hf)] at hl
      cases hl
  · rw [lookup_del_ne s k _ hk] at hl
    exact hwf i u2 hl

theorem storeWF_findById (db : Db) (s : Store) (id : String)
    (uo : Option UserResp) (s1 : Store) (hwf : StoreWF s)
    (h : UserService.findById db s id = .ok (uo, s1)) : StoreWF s1 := by
  rcases findById_shape db s id uo s1 h with ⟨-, hc⟩
  rcases hc with ⟨u2, -, -, hs⟩ | ⟨-, -, -, hs⟩ | ⟨row, -, hdb, -, hs⟩
  · rw [hs]
    exact hwf
  · rw [hs]
    exact hwf
  · rw [hs]
    exact storeWF_set_usr s id row.toResp (some 300) hwf
      (findUniqueById_id db id row hdb)

theorem storeWF_storeRefreshToken (s : Store) (j : String) (t : Token)
    (hwf : StoreWF s) : StoreWF (AuthService.storeRefreshToken s j t) :=
  storeWF_set_tok s j t (some REFRESH_TOKEN_EXPIRES_IN) hwf

/-! ## Operation shapes -/

theorem jwtVerify_some (t : Token) (now : Nat) (p : JwtPayload)
    (h : jwtVerify t now = some p) :
    p = t.payload ∧ t.sigValid = true ∧ now < t.exp := by
  unfold jwtVerify at h
  split at h
  · cases h
    rename_i hc
    simp at hc
    exact ⟨rfl, hc.1, hc.2⟩
  · cases h

theorem catchAll_ok {α : Type} (e : Except AppError α) (repl : AppError) (a : α) :
    catchAll e repl = .ok a ↔ e = .ok a := by
  cases e <;> simp [catchAll]

theorem catchAll_error {α : Type} (e : Except AppError α) (repl : AppError)
    (err : AppError) (h : e = .error err) : catchAll e repl = .error repl := by
  rw [h]
  rfl

theorem verifyRefreshToken_ok (t : Token) (now : Nat) (p : JwtPayload)
    (h : AuthService.verifyRefreshToken t now = .ok p) :
    p = t.payload ∧ t.sigValid = true ∧ now < t.exp ∧
      t.payload.type = .refresh := by
  unfold AuthService.verifyRefreshToken at h
  rw [catchAll_ok] at h
  unfold AuthService.verifyRefreshTokenInner at h
  cases hv : jwtVerify t now with
  | none =>
      rw [hv] at h
      cases h
  | some p2 =>
      rw [hv] at h
      rcases jwtVerify_some t now p2 hv with ⟨hp2, hsig, hexp⟩
      by_cases hty : p2.type = TokenType.refresh
      · simp [isValidJwtPayload, hty] at h
        subst hp2
        subst h
        exact ⟨rfl, hsig, hexp, hty⟩
      · simp [isValidJwtPayload, hty] at h

theorem refresh_ok_shape (db : Db) (s : Store) (t : Token) (now : Nat)
    (r : AuthResponse) (s2 : Store)
    (h : AuthService.refreshToken db s t now = .ok (r, s2)) :
    t.sigValid = true ∧ now < t.exp ∧ t.payload.type = .refresh ∧
    ∃ s1, UserService.findById db s t.payload.sub = .ok (some r.user, s1) ∧
      AuthService.getCachedRefreshToken s1 r.user.id = some t ∧
      r.accessToken = (AuthService.generateTokens r.user now).accessToken ∧
      r.refreshToken = (AuthService.generateTokens r.user now).refreshToken ∧
      r.expiresIn = ACCESS_TOKEN_EXPIRES_IN ∧
      s2 = AuthService.storeRefreshToken s1 r.user.id r.refreshToken := by
  unfold AuthService.refreshToken at h
  rw [catchAll_ok] at h
  unfold AuthService.refreshTokenInner at h
  cases hv : AuthService.verifyRefreshToken t now with
  | error e =>
      rw [hv] at h
      cases h
  | ok p =>
      rw [hv] at h
      rcases verifyRefreshToken_ok t now p hv with ⟨hp, hsig, hexp, hty⟩
      cases hp
      dsimp only at h
      refine ⟨hsig, hexp, hty, ?_⟩
      cases hf : UserService.findById db s t.payload.sub with
      | error e =>
          rw [hf] at h
          cases h
      | ok pair =>
          rcases pair with ⟨uo, s1⟩
          cases uo with
          | none =>
              rw [hf] at h
              cases h
          | some user =>
              rw [hf] at h
              dsimp only at h
              by_cases hcache :
                  AuthService.getCachedRefreshToken s1 user.id = some t
              · rw [if_neg (not_not_intro hcache)] at h
                simp at h
                rcases h with ⟨hr, hs⟩
                subst hr
                subst hs
                exact ⟨s1, rfl, hcache, rfl, rfl, rfl, rfl⟩
              · rw [if_pos hcache] at h
                cases h

theorem login_ok_shape (db : Db) (s : Store) (email pw : String) (now : Nat)
    (r : AuthResponse) (s2 : Store)
    (h : AuthService.login db s email pw now = .ok (r, s2)) :
    ∃ user s1, UserService.validatePassword db email pw = some user ∧
      UserService.findById db s user.id = .ok (some r.user, s1) ∧
      r.accessToken = (AuthService.generateTokens r.user now).accessToken ∧
      r.refreshToken = (AuthService.generateTokens r.user now).refreshToken ∧
      r.expiresIn = ACCESS_TOKEN_EXPIRES_IN ∧
      s2 = AuthService.storeRefreshToken s1 user.id r.refreshToken := by
  unfold AuthService.login at h
  cases hvp : UserService.validatePassword db email pw with
  | none =>
      rw [hvp] at h
      cases h
  | some user =>
      rw [hvp] at h
      dsimp only at h
      cases hf : UserService.findById db s user.id with
      | error e =>
          rw [hf] at h
          cases h
      | ok pair =>
          rcases pair with ⟨uo, s1⟩
          cases uo with
          | none =>
              rw [hf] at h
              cases h
          | some userResponse =>
              rw [hf] at h
              dsimp only at h
              simp at h
              rcases h with ⟨hr, hs⟩
              subst hr
              subst hs
              exact ⟨user, s1, rfl, hf, rfl, rfl, rfl, rfl⟩

theorem create_ok_shape (db : Db) (s : Store) (dto : RegisterDto) (newId : String)
    (u : UserResp) (db1 : Db) (s1 : Store)
    (h : UserService.create db s dto newId = .ok (u, db1, s1)) :
    u.id = newId ∧ s1.failSet = s.failSet ∧ (StoreWF s → StoreWF s1) := by
  unfold UserService.create at h
  split at h
  · cases h
  · split at h
    · cases h
    · split at h
      · cases h
      · split at h
        · cases h
        · simp at h
          rcases h with ⟨hu, -, hs1⟩
          subst hu
          subst hs1
          refine ⟨rfl, set_failSet s _ _ _, ?_⟩
          intro hwf
          exact storeWF_set_usr s newId _ _ hwf rfl

theorem register_ok_shape (db : Db) (s : Store) (dto : RegisterDto)
    (newId : String) (now : Nat) (r : AuthResponse) (db1 : Db) (s2 : Store)
    (h : AuthService.register db s dto newId now = .ok (r, db1, s2)) :
    ∃ s1, UserService.create db s dto newId = .ok (r.user, db1, s1) ∧
      r.refreshToken = (AuthService.generateTokens r.user now).refreshToken ∧
      s2 = AuthService.storeRefreshToken s1 r.user.id r.refreshToken := by
  unfold AuthService.register at h
  cases hc : UserService.create db s dto newId with
  | error e =>
      rw [hc] at h
      cases h
  | ok triple =>
      rcases triple with ⟨user, db1b, s1⟩
      rw [hc] at h
      simp at h
      rcases h with ⟨h1, hdb, h2⟩
      cases h1
      cases hdb
      cases h2
      exact ⟨s1, rfl, rfl, rfl⟩

/-! ## Further shared lemmas -/

theorem catchAll_error_eq {α : Type} (x : Except AppError α) (repl e : AppError)
    (h : catchAll x repl = .error e) : e = repl := by
  cases x with
  | ok a => cases h
  | error err =>
      unfold catchAll at h
      cases h
      rfl

theorem refreshToken_error_uniform (db : Db) (s : Store) (t : Token) (now : Nat)
    (e : AppError) (h : AuthService.refreshToken db s t now = .error e) :
    e = .unauthenticated "Invalid refresh token" :=
  catchAll_error_eq _ _ _ h

theorem set_id_of_failSet (s : Store) (k : String) (v : CacheVal)
    (ttl : Option Nat) (h : s.failSet = true) : CacheService.set s k v ttl = s := by
  simp [CacheService.set, h]

theorem del_failDel (s : Store) (k : String) :
    (CacheService.del s k).failDel = s.failDel := by
  unfold CacheService.del
  split <;> rfl

theorem getTok_some (s : Store) (k : String) (t : Token)
    (h : CacheService.getTok s k = some t) :
    s.failGet = false ∧ s.lookup k = some (.tok t) := by
  unfold CacheService.getTok CacheService.get at h
  cases hf : s.failGet with
  | true =>
      rw [hf] at h
      simp at h
  | false =>
      rw [hf] at h
      refine ⟨rfl, ?_⟩
      cases hl : s.lookup k with
      | none =>
          rw [hl] at h
          cases h
      | some v =>
          rw [hl] at h
          cases v with
          | tok t2 =>
              simp at h
              rw [h]
          | usr u => simp at h

theorem verifyRefreshToken_ok_of (t : Token) (now : Nat)
    (hsig : t.sigValid = true) (hexp : now < t.exp)
    (hty : t.payload.type = .refresh) :
    AuthService.verifyRefreshToken t now = .ok t.payload := by
  simp [AuthService.verifyRefreshToken, AuthService.verifyRefreshTokenInner,
        jwtVerify, hsig, hexp, isValidJwtPayload, hty, catchAll]

theorem verifyRefreshToken_err_of_type (t : Token) (now : Nat)
    (hty : t.payload.type ≠ .refresh) :
    AuthService.verifyRefreshToken t now =
      .error (.unauthenticated "Invalid refresh token") := by
  unfold AuthService.verifyRefreshToken AuthService.verifyRefreshTokenInner
  cases hv : jwtVerify t now with
  | none => rfl
  | some p =>
      rcases jwtVerify_some t now p hv with ⟨hp, -, -⟩
      subst hp
      simp [isValidJwtPayload, hty, catchAll]

/-! ## Concrete fixtures used by witnesses and counterexamples -/

/-- A version-1 variant-8 UUID used as the id of the test principal. -/
def uuid1 : String := "11111111-1111-1111-8111-111111111111"

/-- A second UUID (an unknown principal, or a second workspace). -/
def uuid2 : String := "22222222-2222-2222-8222-222222222222"

/-- A third UUID (a workspace the test principal is not a member of). -/
def uuid3 : String := "33333333-3333-3333-8333-333333333333"

/-- The registered test user row. -/
def alice : UserRec :=
  { id := uuid1, email := "alice@example.com", name := "Alice",
    password := bcryptHash 12 "password123", role := "USER" }

/-- The response DTO of the test user. -/
def aliceResp : UserResp := alice.toResp

/-- A credential store holding exactly the test user. -/
def dbA : Db := ⟨[alice]⟩

/-- An empty, healthy cache store. -/
def store0 : Store := ⟨[], false, false, false⟩

/-- The refresh token issued to the test user at time 0. -/
def refTok1 : Token :=
  jwtSign { sub := uuid1, email := "alice@example.com", role := "USER",
            type := .refresh } 0 REFRESH_TOKEN_EXPIRES_IN

/-- The access token issued to the test user at time 0. -/
def accTok1 : Token :=
  jwtSign { sub := uuid1, email := "alice@example.com", role := "USER",
            type := .access } 0 ACCESS_TOKEN_EXPIRES_IN

/-- A healthy store holding the refresh record of the test user. -/
def storeR : Store := ⟨[(refreshTokenKey uuid1, .tok refTok1)], false, false, false⟩

/-- The empty store is well formed. -/
theorem storeWF_store0 : StoreWF store0 :=
  fun _ _ h => Option.noConfusion h

/-! ## C9 -/

/-- C9: token codec round trip.  Verifying, at issue time, a token issued
with kind ACCESS and any positive ttl yields the signed payload, whose
sub is the subject id; in particular the access token produced by
generateTokens verifies to the subject id.  And verification of any
token whose expiry is not in the future fails, whatever its sigValid
flag. -/
theorem C9_token_codec_round_trip (u : UserResp) (now ttl : Nat) (h : 0 < ttl) :
    jwtVerify (jwtSign ⟨u.id, u.email, u.role, .access⟩ now ttl) now =
      some ⟨u.id, u.email, u.role, .access⟩ ∧
    (jwtVerify (AuthService.generateTokens u now).accessToken now).map
        JwtPayload.sub = some u.id ∧
    (∀ t : Token, ∀ tN : Nat, t.exp ≤ tN → jwtVerify t tN = none) := by
  refine ⟨?_, ?_, ?_⟩
  · simp [jwtVerify, jwtSign, h]
  · simp [AuthService.generateTokens, jwtVerify, jwtSign, ACCESS_TOKEN_EXPIRES_IN]
  · intro t tN hle
    have hd : decide (tN < t.exp) = false := by
      simp
      omega
    simp [jwtVerify, hd]

/-- C9 witness at a concrete subject and ttl. -/
theorem C9_witness :
    jwtVerify (jwtSign ⟨aliceResp.id, aliceResp.email, aliceResp.role, .access⟩
        7 60) 7 =
      some ⟨aliceResp.id, aliceResp.email, aliceResp.role, .access⟩ ∧
    jwtVerify ⟨⟨uuid1, "alice@example.com", "USER", .access⟩, 0, 3600, false⟩
        3600 = none := by
  constructor
  · exact (C9_token_codec_round_trip aliceResp 7 60 (by decide)).1
  · exact (C9_token_codec_round_trip aliceResp 7 60 (by decide)).2.2 _ 3600
      (by decide)

/-! ## C3 -/

/-- C3: kind isolation in both directions.  For a cryptographically
valid, unexpired token: if its payload type is REFRESH the access
authentication path rejects it with Unauthorized, and if its payload
type is ACCESS both the refresh verification and the refresh operation
reject it with Unauthorized, even though the bare codec verify accepts
the token either way. -/
theorem C3_kind_isolation (db : Db) (s : Store) (t : Token) (now : Nat)
    (hsig : t.sigValid = true) (hexp : now < t.exp) :
    (t.payload.type = .refresh →
       accessAuthenticate db s t now =
         .error (.unauthenticated "Invalid token type")) ∧
    (t.payload.type = .access →
       AuthService.verifyRefreshToken t now =
         .error (.unauthenticated "Invalid refresh token") ∧
       AuthService.refreshToken db s t now =
         .error (.unauthenticated "Invalid refresh token")) ∧
    jwtVerify t now = some t.payload := by
  refine ⟨?_, ?_, ?_⟩
  · intro hty
    simp [accessAuthenticate, jwtVerify, hsig, hexp, JwtStrategy.validate, hty]
  · intro hty
    have hver := verifyRefreshToken_err_of_type t now (by rw [hty]; simp)
    refine ⟨hver, ?_⟩
    unfold AuthService.refreshToken AuthService.refreshTokenInner
    rw [hver]
    rfl
  · simp [jwtVerify, hsig, hexp]

/-- C3 witness: the concrete refresh token is rejected on the access
path and the concrete access token is rejected on the refresh path. -/
theorem C3_witness :
    accessAuthenticate dbA store0 refTok1 0 =
      .error (.unauthenticated "Invalid token type") ∧
    AuthService.refreshToken dbA store0 accTok1 0 =
      .error (.unauthenticated "Invalid refresh token") := by
  constructor
  · exact (C3_kind_isolation dbA store0 refTok1 0 rfl (by decide)).1 rfl
  · exact ((C3_kind_isolation dbA store0 accTok1 0 rfl (by decide)).2.1 rfl).2

/-! ## C8 -/

/-- C8: logout is idempotent and deleting an absent key is not an error.
A second logout after a first one never errors and returns the very
state the first one produced; when the backend delete works, no refresh
record remains; and logging out with no record present succeeds without
changing the store. -/
theorem C8_logout_idempotent (s : Store) (uid : String) :
    (∀ s1, AuthService.logout s uid = .ok s1 →
       AuthService.logout s1 uid = .ok s1) ∧
    (s.failDel = false → ∀ s1, AuthService.logout s uid = .ok s1 →
       s1.lookup (refreshTokenKey uid) = none ∧ recordEntries s1 uid = []) ∧
    (s.lookup (refreshTokenKey uid) = none → AuthService.logout s uid = .ok s) := by
  have hdd : CacheService.del (CacheService.del s (refreshTokenKey uid))
      (refreshTokenKey uid) = CacheService.del s (refreshTokenKey uid) := by
    by_cases hf : s.failDel
    · simp [CacheService.del, hf]
    · have hf2 : s.failDel = false := by simpa using hf
      simp [CacheService.del, hf2, List.filter_filter]
  refine ⟨?_, ?_, ?_⟩
  · intro s1 h
    unfold AuthService.logout AuthService.removeRefreshToken at h ⊢
    cases h
    rw [hdd]
  · intro hdel s1 h
    unfold AuthService.logout AuthService.removeRefreshToken at h
    cases h
    exact ⟨lookup_del_self s _ hdel, del_filter_self s _ hdel⟩
  · intro hnone
    have hall : ∀ p ∈ s.data, (p.1 != refreshTokenKey uid) = true := by
      intro p hp
      unfold Store.lookup at hnone
      cases hfind : s.data.find? (fun q => q.1 == refreshTokenKey uid) with
      | some q =>
          rw [hfind] at hnone
          cases hnone
      | none =>
          have := List.find?_eq_none.mp hfind p hp
          simpa using this
    have hfilter : s.data.filter (fun p => p.1 != refreshTokenKey uid) =
        s.data := List.filter_eq_self.mpr hall
    rcases s with ⟨d, fg, fs, fd⟩
    cases fd with
    | true =>
        simp [AuthService.logout, AuthService.removeRefreshToken,
              CacheService.del]
    | false =>
        simp only at hfilter
        simp [AuthService.logout, AuthService.removeRefreshToken,
              CacheService.del, hfilter]

/-- C8 witness: two logouts in a row on the concrete store holding a
record; the second succeeds and returns the state of the first, which
holds no record. -/
theorem C8_witness :
    AuthService.logout storeR uuid1 =
      .ok (CacheService.del storeR (refreshTokenKey uuid1)) ∧
    AuthService.logout (CacheService.del storeR (refreshTokenKey uuid1)) uuid1 =
      .ok (CacheService.del storeR (refreshTokenKey uuid1)) ∧
    recordEntries (CacheService.del storeR (refreshTokenKey uuid1)) uuid1 = [] := by
  refine ⟨rfl, ?_, ?_⟩
  · exact (C8_logout_idempotent storeR uuid1).1 _ rfl
  · exact ((C8_logout_idempotent storeR uuid1).2.1 rfl _ rfl).2

/-! ## C10 -/

/-- C10: an empty composite requirement combined with operator OR denies
every authenticated principal (the OR over an empty results list is
false), while the same empty requirement with operator AND, or with the
operator left out (the default), allows. -/
theorem C10_empty_requirement (request : GuardRequest) (u : AuthUser)
    (hu : request.user = some u) (hid : isAuthenticatedUser u = true) :
    CompositeAuthGuard.canActivate
        (some { roles := none, permissions := none, workspaceRoles := none,
                conditions := none, operator := some .or }) none request =
      .error (.forbidden "Insufficient permissions") ∧
    CompositeAuthGuard.canActivate
        (some { roles := none, permissions := none, workspaceRoles := none,
                conditions := none, operator := some .and }) none request =
      .ok true ∧
    CompositeAuthGuard.canActivate
        (some { roles := none, permissions := none, workspaceRoles := none,
                conditions := none, operator := none }) none request =
      .ok true := by
  refine ⟨?_, ?_, ?_⟩ <;>
    simp [CompositeAuthGuard.canActivate, CompositeAuthGuard.results, hu, hid]

/-- Helper for the rotation claims: once the store holds some refresh
record for a principal that is not the presented token, the refresh
operation fails Unauthorized for every token of that principal other
than the recorded one. -/
theorem refresh_fails_on_stale (db : Db) (s1 : Store) (uid : String)
    (tokNew told : Token) (now2 : Nat) (hwf : StoreWF s1)
    (hlk : s1.lookup (refreshTokenKey uid) = some (.tok tokNew))
    (hne : told ≠ tokNew) (hsub : told.payload.sub = uid) :
    AuthService.refreshToken db s1 told now2 =
      .error (.unauthenticated "Invalid refresh token") := by
  cases hres : AuthService.refreshToken db s1 told now2 with
  | error e =>
      have he := refreshToken_error_uniform db s1 told now2 e hres
      rw [← he]
  | ok pair =>
      exfalso
      rcases pair with ⟨r2, s2b⟩
      rcases refresh_ok_shape db s1 told now2 r2 s2b hres with
        ⟨-, -, -, s1b, hfind, hcache, -, -, -, -⟩
      have hid : r2.user.id = told.payload.sub :=
        findById_ok_id db s1 _ _ _ hwf hfind
      rw [hsub] at hid
      unfold AuthService.getCachedRefreshToken at hcache
      rcases getTok_some _ _ _ hcache with ⟨-, hlk2⟩
      rw [hid] at hlk2
      rw [findById_refresh_lookup db s1 _ _ _ hfind uid] at hlk2
      rw [hlk] at hlk2
      have : told = tokNew := by
        cases hlk2
        rfl
      exact hne this

/-! ## C1 -/

/-- C1: at most one live Refresh Record per principal.  With a well
formed store whose backend accepts writes: a successful register, login
or refresh leaves exactly one entry under the refresh record key of the
returned principal, holding exactly the newly issued refresh token;
logout leaves none; and after a successful login or refresh, presenting
any other token of that principal (in particular any previously issued
refresh token) to refresh fails Unauthorized, because it cannot be byte
equal to the stored record. -/
theorem C1_single_live_refresh_record (db : Db) (s : Store) (now : Nat)
    (hwf : StoreWF s) (hset : s.failSet = false) :
    (∀ dto newId r db1 s1,
       AuthService.register db s dto newId now = .ok (r, db1, s1) →
       recordEntries s1 r.user.id =
         [(refreshTokenKey r.user.id, .tok r.refreshToken)]) ∧
    (∀ email pw r s1, AuthService.login db s email pw now = .ok (r, s1) →
       recordEntries s1 r.user.id =
         [(refreshTokenKey r.user.id, .tok r.refreshToken)]) ∧
    (∀ t r s1, AuthService.refreshToken db s t now = .ok (r, s1) →
       recordEntries s1 r.user.id =
         [(refreshTokenKey r.user.id, .tok r.refreshToken)]) ∧
    (∀ uid s1, s.failDel = false → AuthService.logout s uid = .ok s1 →
       recordEntries s1 uid = []) ∧
    (∀ email pw r s1, AuthService.login db s email pw now = .ok (r, s1) →
       ∀ told now2, told ≠ r.refreshToken → told.payload.sub = r.user.id →
         AuthService.refreshToken db s1 told now2 =
           .error (.unauthenticated "Invalid refresh token")) ∧
    (∀ t r s1, AuthService.refreshToken db s t now = .ok (r, s1) →
       ∀ told now2, told ≠ r.refreshToken → told.payload.sub = r.user.id →
         AuthService.refreshToken db s1 told now2 =
           .error (.unauthenticated "Invalid refresh token")) := by
  refine ⟨?_, ?_, ?_, ?_, ?_, ?_⟩
  · intro dto newId r db1 s1 h
    rcases register_ok_shape db s dto newId now r db1 s1 h with
      ⟨s1b, hcreate, -, hs1⟩
    rcases create_ok_shape db s dto newId r.user db1 s1b hcreate with
      ⟨-, hflag, -⟩
    subst hs1
    unfold recordEntries AuthService.storeRefreshToken
    exact set_filter_self s1b _ _ _ (hflag.trans hset)
  · intro email pw r s1 h
    rcases login_ok_shape db s email pw now r s1 h with
      ⟨user, s1b, -, hfind, -, -, -, hs1⟩
    have hid : r.user.id = user.id := findById_ok_id db s _ _ _ hwf hfind
    subst hs1
    unfold recordEntries AuthService.storeRefreshToken
    rw [hid]
    exact set_filter_self s1b _ _ _
      ((findById_flags db s _ _ _ hfind).2.1.trans hset)
  · intro t r s1 h
    rcases refresh_ok_shape db s t now r s1 h with
      ⟨-, -, -, s1b, hfind, -, -, -, -, hs1⟩
    subst hs1
    unfold recordEntries AuthService.storeRefreshToken
    exact set_filter_self s1b _ _ _
      ((findById_flags db s _ _ _ hfind).2.1.trans hset)
  · intro uid s1 hdel h
    unfold AuthService.logout AuthService.removeRefreshToken at h
    cases h
    unfold recordEntries
    exact del_filter_self s _ hdel
  · intro email pw r s1 h told now2 hne hsub
    rcases login_ok_shape db s email pw now r s1 h with
      ⟨user, s1b, -, hfind, -, -, -, hs1⟩
    have hid : r.user.id = user.id := findById_ok_id db s _ _ _ hwf hfind
    have hwf1b := storeWF_findById db s _ _ _ hwf hfind
    subst hs1
    apply refresh_fails_on_stale db _ user.id r.refreshToken told now2
      (storeWF_storeRefreshToken s1b user.id r.refreshToken hwf1b)
      ?_ hne (hsub.trans hid)
    unfold AuthService.storeRefreshToken
    exact lookup_set_self s1b _ _ _
      ((findById_flags db s _ _ _ hfind).2.1.trans hset)
  · intro t r s1 h told now2 hne hsub
    rcases refresh_ok_shape db s t now r s1 h with
      ⟨-, -, -, s1b, hfind, -, -, -, -, hs1⟩
    have hwf1b := storeWF_findById db s _ _ _ hwf hfind
    subst hs1
    apply refresh_fails_on_stale db _ r.user.id r.refreshToken told now2
      (storeWF_storeRefreshToken s1b r.user.id r.refreshToken hwf1b)
      ?_ hne hsub
    unfold AuthService.storeRefreshToken
    exact lookup_set_self s1b _ _ _
      ((findById_flags db s _ _ _ hfind).2.1.trans hset)

/-- The AuthResponse of the concrete login of the test user at time 0. -/
def rc : AuthResponse := ⟨accTok1, refTok1, ACCESS_TOKEN_EXPIRES_IN, aliceResp⟩

/-- The store produced by the concrete login of the test user at time 0:
the cached user DTO plus the refresh record. -/
def s1c : Store :=
  AuthService.storeRefreshToken
    (CacheService.set store0 (userCacheKey uuid1) (.usr aliceResp) (some 300))
    uuid1 refTok1

/-- A stale refresh token of the test principal: same claims, issued at
a different instant, hence a different compact string. -/
def staleTok : Token :=
  jwtSign { sub := uuid1, email := "alice@example.com", role := "USER",
            type := .refresh } 1 REFRESH_TOKEN_EXPIRES_IN

/-- C1 witness: the concrete login writes exactly one record, and the
stale token of the same principal is rejected afterwards. -/
theorem C1_witness :
    AuthService.login dbA store0 "alice@example.com" "password123" 0 =
      .ok (rc, s1c) ∧
    recordEntries s1c rc.user.id =
      [(refreshTokenKey rc.user.id, .tok rc.refreshToken)] ∧
    AuthService.refreshToken dbA s1c staleTok 9 =
      .error (.unauthenticated "Invalid refresh token") := by
  have hlogin : AuthService.login dbA store0 "alice@example.com" "password123" 0
      = .ok (rc, s1c) := rfl
  refine ⟨hlogin, ?_, ?_⟩
  · exact (C1_single_live_refresh_record dbA store0 0 storeWF_store0 rfl).2.1
      _ _ _ _ hlogin
  · exact (C1_single_live_refresh_record dbA store0 0
      storeWF_store0 rfl).2.2.2.2.1 _ _ _ _ hlogin staleTok 9 (by decide) rfl

/-! ## C2 -/

/-- C2: the refresh operation follows exactly the step contract (a)
verify, (b) type equals REFRESH, (c) load principal by payload.sub,
(d) byte equality with the cached record of that principal, failing
Unauthorized whenever any of those fails, and only when all succeed
(e) issuing a new pair and overwriting the record. -/
theorem C2_refresh_step_contract (db : Db) (s : Store) (t : Token) (now : Nat) :
    (jwtVerify t now = none →
       AuthService.refreshToken db s t now =
         .error (.unauthenticated "Invalid refresh token")) ∧
    (t.payload.type ≠ .refresh →
       AuthService.refreshToken db s t now =
         .error (.unauthenticated "Invalid refresh token")) ∧
    (∀ e, UserService.findById db s t.payload.sub = .error e →
       AuthService.refreshToken db s t now =
         .error (.unauthenticated "Invalid refresh token")) ∧
    (∀ s1, UserService.findById db s t.payload.sub = .ok (none, s1) →
       AuthService.refreshToken db s t now =
         .error (.unauthenticated "Invalid refresh token")) ∧
    (∀ u s1, UserService.findById db s t.payload.sub = .ok (some u, s1) →
       AuthService.getCachedRefreshToken s1 u.id ≠ some t →
       AuthService.refreshToken db s t now =
         .error (.unauthenticated "Invalid refresh token")) ∧
    (∀ u s1, t.sigValid = true → now < t.exp → t.payload.type = .refresh →
       UserService.findById db s t.payload.sub = .ok (some u, s1) →
       AuthService.getCachedRefreshToken s1 u.id = some t →
       AuthService.refreshToken db s t now =
         .ok ({ accessToken := (AuthService.generateTokens u now).accessToken,
                refreshToken := (AuthService.generateTokens u now).refreshToken,
                expiresIn := ACCESS_TOKEN_EXPIRES_IN, user := u },
              AuthService.storeRefreshToken s1 u.id
                (AuthService.generateTokens u now).refreshToken)) := by
  refine ⟨?_, ?_, ?_, ?_, ?_, ?_⟩
  · intro hv
    unfold AuthService.refreshToken AuthService.refreshTokenInner
      AuthService.verifyRefreshToken AuthService.verifyRefreshTokenInner
    rw [hv]
    rfl
  · intro hty
    have hver := verifyRefreshToken_err_of_type t now hty
    unfold AuthService.refreshToken AuthService.refreshTokenInner
    rw [hver]
    rfl
  · intro e hfind
    cases hver : AuthService.verifyRefreshToken t now with
    | error e2 =>
        unfold AuthService.refreshToken AuthService.refreshTokenInner
        rw [hver]
        rfl
    | ok p =>
        rcases verifyRefreshToken_ok t now p hver with ⟨hp, -, -, -⟩
        subst hp
        unfold AuthService.refreshToken AuthService.refreshTokenInner
        rw [hver]
        dsimp only
        rw [hfind]
        rfl
  · intro s1 hfind
    cases hver : AuthService.verifyRefreshToken t now with
    | error e2 =>
        unfold AuthService.refreshToken AuthService.refreshTokenInner
        rw [hver]
        rfl
    | ok p =>
        rcases verifyRefreshToken_ok t now p hver with ⟨hp, -, -, -⟩
        subst hp
        unfold AuthService.refreshToken AuthService.refreshTokenInner
        rw [hver]
        dsimp only
        rw [hfind]
        rfl
  · intro u s1 hfind hcache
    cases hver : AuthService.verifyRefreshToken t now with
    | error e2 =>
        unfold AuthService.refreshToken AuthService.refreshTokenInner
        rw [hver]
        rfl
    | ok p =>
        rcases verifyRefreshToken_ok t now p hver with ⟨hp, -, -, -⟩
        subst hp
        unfold AuthService.refreshToken AuthService.refreshTokenInner
        rw [hver]
        dsimp only
        rw [hfind]
        dsimp only
        rw [if_pos hcache]
        rfl
  · intro u s1 hsig hexp hty hfind hcache
    have hver := verifyRefreshToken_ok_of t now hsig hexp hty
    unfold AuthService.refreshToken AuthService.refreshTokenInner
    rw [hver]
    dsimp only
    rw [hfind]
    dsimp only
    rw [if_neg (not_not_intro hcache)]
    rfl

/-- C2 witness: at the concrete store holding the record, a refresh with
the live token succeeds with the new pair and the overwritten record,
while a refresh with an access token fails Unauthorized. -/
theorem C2_witness :
    AuthService.refreshToken dbA storeR refTok1 5 =
      .ok ({ accessToken :=
               (AuthService.generateTokens aliceResp 5).accessToken,
             refreshToken :=
               (AuthService.generateTokens aliceResp 5).refreshToken,
             expiresIn := ACCESS_TOKEN_EXPIRES_IN, user := aliceResp },
           AuthService.storeRefreshToken
             (CacheService.set storeR (userCacheKey uuid1) (.usr aliceResp)
               (some 300))
             aliceResp.id
             (AuthService.generateTokens aliceResp 5).refreshToken) ∧
    AuthService.refreshToken dbA storeR accTok1 5 =
      .error (.unauthenticated "Invalid refresh token") := by
  constructor
  · exact (C2_refresh_step_contract dbA storeR refTok1 5).2.2.2.2.2 aliceResp
      (CacheService.set storeR (userCacheKey uuid1) (.usr aliceResp) (some 300))
      rfl (by decide) rfl rfl (by decide)
  · exact (C2_refresh_step_contract dbA storeR accTok1 5).2.1 (by decide)

/-- C10 witness at a concrete valid principal. -/
theorem C10_witness :
    CompositeAuthGuard.canActivate
        (some { roles := none, permissions := none, workspaceRoles := none,
                conditions := none, operator := some .or }) none
        ⟨some ⟨uuid1, "alice@example.com", ["USER"], []⟩, []⟩ =
      .error (.forbidden "Insufficient permissions") ∧
    CompositeAuthGuard.canActivate
        (some { roles := none, permissions := none, workspaceRoles := none,
                conditions := none, operator := some .and }) none
        ⟨some ⟨uuid1, "alice@example.com", ["USER"], []⟩, []⟩ = .ok true := by
  constructor
  · exact (C10_empty_requirement _ _ rfl (by decide)).1
  · exact (C10_empty_requirement _ _ rfl (by decide)).2.1

/-! ## C4 -/

/-- C4 counterexample: an operation carrying a roles requirement, a
request with no principal attached.  The guard fails with
ForbiddenException (the 403 class), not with an Unauthorized (401 class)
error as the claim states. -/
theorem C4_counterexample :
    CompositeAuthGuard.canActivate
        (some ⟨some ["ADMIN"], none, none, none, none⟩) none ⟨none, []⟩ =
      .error (.forbidden "Authentication required") ∧
    errIsUnauthClass (CompositeAuthGuard.canActivate
        (some ⟨some ["ADMIN"], none, none, none, none⟩) none ⟨none, []⟩) =
      false :=
  ⟨rfl, rfl⟩

/-- C4 amended: for every operation carrying requirements, a request
without a principal, or with an invalid principal, fails with the
Forbidden (403 class) error — the same class the guard uses for
insufficient privilege; CompositeAuthGuard never raises the 401 class
itself. -/
theorem C4_missing_principal_forbidden (requirements : CompositeAuthRequirements)
    (conditions : Option (List AuthCondition)) (request : GuardRequest) :
    (request.user = none →
       CompositeAuthGuard.canActivate (some requirements) conditions request =
         .error (.forbidden "Authentication required")) ∧
    (∀ u, request.user = some u → isAuthenticatedUser u = false →
       CompositeAuthGuard.canActivate (some requirements) conditions request =
         .error (.forbidden "Invalid user authentication")) := by
  constructor
  · intro hu
    unfold CompositeAuthGuard.canActivate
    rw [hu]
    simp
  · intro u hu hau
    unfold CompositeAuthGuard.canActivate
    rw [hu]
    simp [hau]

/-- C4 witness: the amended statement at a concrete missing principal
and at a concrete principal whose id fails the UUID guard. -/
theorem C4_witness :
    CompositeAuthGuard.canActivate
        (some ⟨some ["USER"], none, none, none, none⟩) none ⟨none, []⟩ =
      .error (.forbidden "Authentication required") ∧
    CompositeAuthGuard.canActivate
        (some ⟨some ["USER"], none, none, none, none⟩) none
        ⟨some ⟨"not-a-uuid", "x@y.zz", ["USER"], []⟩, []⟩ =
      .error (.forbidden "Invalid user authentication") := by
  constructor
  · exact (C4_missing_principal_forbidden _ none _).1 rfl
  · exact (C4_missing_principal_forbidden _ none _).2 _ rfl (by decide)

/-! ## C5 -/

/-- C5 counterexample: the principal holds ADMIN only in the workspace
uuid2, yet a workspaceRoles ADMIN requirement allows the request both
when no workspace id is resolvable from the request (the claim demands a
deny) and when the request names workspace uuid3, of which the principal
is not a member (the claim demands that only the entry of the request
workspace counts). -/
theorem C5_counterexample :
    CompositeAuthGuard.canActivate
        (some ⟨none, none, some ["ADMIN"], none, some .or⟩) none
        ⟨some ⟨uuid1, "alice@example.com", ["USER"], [⟨uuid2, "ADMIN"⟩]⟩, []⟩ =
      .ok true ∧
    CompositeAuthGuard.canActivate
        (some ⟨none, none, some ["ADMIN"], none, some .or⟩) none
        ⟨some ⟨uuid1, "alice@example.com", ["USER"], [⟨uuid2, "ADMIN"⟩]⟩,
         [("workspaceId", uuid3)]⟩ =
      .ok true :=
  ⟨rfl, rfl⟩

/-- C5 amended: CompositeAuthGuard.checkWorkspaceRoles ignores the
request workspace id entirely: it denies a principal without workspace
memberships and otherwise evaluates the required roles against the roles
the principal holds across ALL its workspaces (ANY with operator OR,
ALL with operator AND); the per-workspace resolution the claim describes
— matching only the entry of params.workspaceId and denying when it is
unresolvable — is implemented by the separate WorkspacePermissionGuard. -/
theorem C5_workspace_roles_ignore_request (user : AuthUser) (rs : List String)
    (op : Option GOp) :
    (user.workspaces = [] →
       CompositeAuthGuard.checkWorkspaceRoles user rs op = false) ∧
    (CompositeAuthGuard.checkWorkspaceRoles user rs (some .or) = true ↔
       user.workspaces ≠ [] ∧
       ∃ role ∈ rs, ∃ w ∈ user.workspaces, w.role = role) ∧
    (CompositeAuthGuard.checkWorkspaceRoles user rs (some .and) = true ↔
       user.workspaces ≠ [] ∧
       ∀ role ∈ rs, ∃ w ∈ user.workspaces, w.role = role) ∧
    (∀ request u2, rs ≠ [] → request.user = some u2 →
       isAuthenticatedUser u2 = true →
       request.params.find? (fun p => p.1 == "workspaceId") = none →
       WorkspacePermissionGuard.canActivate (some rs) request =
         .error (.forbiddenBody ⟨403, "Invalid workspace",
           ["Workspace ID is required and must be valid UUID"]⟩)) := by
  refine ⟨?_, ?_, ?_, ?_⟩
  · intro h
    unfold CompositeAuthGuard.checkWorkspaceRoles
    simp [h]
  · unfold CompositeAuthGuard.checkWorkspaceRoles
    by_cases hemp : user.workspaces.isEmpty
    · simp [hemp, List.isEmpty_iff.mp hemp]
    · have hne : user.workspaces ≠ [] := by
        simpa [List.isEmpty_iff] using hemp
      simp [hemp, Option.getD, hne, List.any_eq_true, List.mem_map]
  · unfold CompositeAuthGuard.checkWorkspaceRoles
    by_cases hemp : user.workspaces.isEmpty
    · simp [hemp, List.isEmpty_iff.mp hemp]
    · have hne : user.workspaces ≠ [] := by
        simpa [List.isEmpty_iff] using hemp
      simp [hemp, Option.getD, hne, List.all_eq_true, List.mem_map]
  · intro request u2 hrs hu hau hfind
    unfold WorkspacePermissionGuard.canActivate
    have hrs2 : rs.isEmpty = false := by
      simpa [List.isEmpty_iff] using hrs
    rw [hu]
    simp [hrs2, hau, hfind]

/-- C5 witness: the amended statement at the concrete principal with an
ADMIN membership in workspace uuid2 only, and at a concrete request with
no workspaceId parameter for the workspace guard. -/
theorem C5_witness :
    CompositeAuthGuard.checkWorkspaceRoles
        ⟨uuid1, "alice@example.com", ["USER"], []⟩ ["ADMIN"] (some .or) =
      false ∧
    CompositeAuthGuard.checkWorkspaceRoles
        ⟨uuid1, "alice@example.com", ["USER"], [⟨uuid2, "ADMIN"⟩]⟩ ["ADMIN"]
        (some .or) = true ∧
    WorkspacePermissionGuard.canActivate (some ["ADMIN"])
        ⟨some ⟨uuid1, "alice@example.com", ["USER"], [⟨uuid2, "ADMIN"⟩]⟩, []⟩ =
      .error (.forbiddenBody ⟨403, "Invalid workspace",
        ["Workspace ID is required and must be valid UUID"]⟩) := by
  refine ⟨?_, ?_, ?_⟩
  · exact (C5_workspace_roles_ignore_request
      ⟨uuid1, "alice@example.com", ["USER"], []⟩ ["ADMIN"] (some .or)).1 rfl
  · exact (C5_workspace_roles_ignore_request
      ⟨uuid1, "alice@example.com", ["USER"], [⟨uuid2, "ADMIN"⟩]⟩ ["ADMIN"]
      (some .or)).2.1.mpr
      ⟨by decide, "ADMIN", by decide, ⟨uuid2, "ADMIN"⟩, by decide, rfl⟩
  · exact (C5_workspace_roles_ignore_request
      ⟨uuid1, "alice@example.com", ["USER"], [⟨uuid2, "ADMIN"⟩]⟩ ["ADMIN"]
      (some .or)).2.2.2 _ _ (by decide) rfl (by decide) rfl

/-! ## C6 -/

/-- A refresh-shaped token whose signature does not verify. -/
def badSigTok : Token :=
  { payload := { sub := uuid1, email := "alice@example.com", role := "USER",
                 type := .refresh },
    iat := 0, exp := 100, sigValid := false }

/-- A valid refresh token of a principal that is not in the store. -/
def ghostTok : Token :=
  jwtSign { sub := uuid2, email := "bob@example.com", role := "USER",
            type := .refresh } 0 REFRESH_TOKEN_EXPIRES_IN

/-- An empty credential store. -/
def dbEmpty : Db := ⟨[]⟩

/-- C6 counterexample: two failing runs of the enhanced refresh — one
failing verification, one failing the principal load — surface errors
with different message and errors content, so refresh failures at
different steps are distinguishable there, contrary to the claim. -/
theorem C6_counterexample :
    Enhanced.refreshToken dbEmpty store0 badSigTok 0 =
      .error (.unauthenticatedBody ⟨401, "Token validation failed",
        ["Token is expired or invalid"]⟩) ∧
    Enhanced.refreshToken dbEmpty store0 ghostTok 0 =
      .error (.unauthenticatedBody ⟨401, "User not found",
        ["User associated with token no longer exists"]⟩) ∧
    (AppError.unauthenticatedBody ⟨401, "Token validation failed",
        ["Token is expired or invalid"]⟩ ≠
      AppError.unauthenticatedBody ⟨401, "User not found",
        ["User associated with token no longer exists"]⟩) :=
  ⟨rfl, rfl, by decide⟩

/-- C6 amended: login failures are indistinguishable — unknown email and
failed password comparison both make validatePassword return null and
login surfaces the single fixed Invalid credentials error — and in the
basic AuthService every failing refresh run surfaces the identical
Invalid refresh token error; the enhanced refresh variant, however,
surfaces step-specific error contents (see the counterexample). -/
theorem C6_login_failures_uniform (db : Db) (s : Store) (email pw : String)
    (now : Nat) :
    (db.findUniqueByEmail email = none →
       UserService.validatePassword db email pw = none) ∧
    (∀ u, db.findUniqueByEmail email = some u →
       bcryptCompare pw u.password = false →
       UserService.validatePassword db email pw = none) ∧
    (UserService.validatePassword db email pw = none →
       AuthService.login db s email pw now =
         .error (.unauthenticated "Invalid credentials")) ∧
    (∀ t e, AuthService.refreshToken db s t now = .error e →
       e = .unauthenticated "Invalid refresh token") := by
  refine ⟨?_, ?_, ?_, ?_⟩
  · intro h
    unfold UserService.validatePassword
    split
    · rfl
    · split
      · rfl
      · rw [h]
  · intro u h hcmp
    unfold UserService.validatePassword
    split
    · rfl
    · split
      · rfl
      · rw [h]
        simp [hcmp]
  · intro h
    unfold AuthService.login
    rw [h]
  · intro t e h
    exact refreshToken_error_uniform db s t now e h

/-- C6 witness: the two login failure modes on the concrete store
produce the same single error. -/
theorem C6_witness :
    UserService.validatePassword dbA "bob@example.com" "password123" = none ∧
    UserService.validatePassword dbA "alice@example.com" "wrongpassword" =
      none ∧
    AuthService.login dbA store0 "bob@example.com" "password123" 0 =
      .error (.unauthenticated "Invalid credentials") ∧
    AuthService.login dbA store0 "alice@example.com" "wrongpassword" 0 =
      .error (.unauthenticated "Invalid credentials") := by
  refine ⟨?_, ?_, ?_, ?_⟩
  · exact (C6_login_failures_uniform dbA store0 "bob@example.com"
      "password123" 0).1 rfl
  · exact (C6_login_failures_uniform dbA store0 "alice@example.com"
      "wrongpassword" 0).2.1 alice rfl (by decide)
  · exact (C6_login_failures_uniform dbA store0 "bob@example.com"
      "password123" 0).2.2.1 rfl
  · exact (C6_login_failures_uniform dbA store0 "alice@example.com"
      "wrongpassword" 0).2.2.1 rfl

/-! ## C7 -/

/-- A store holding the refresh record of the test user whose backend
rejects writes. -/
def storeFail : Store :=
  ⟨[(refreshTokenKey uuid1, .tok refTok1)], false, true, false⟩

/-- C7 counterexample: with a failing cache write, refresh still returns
the fresh token pair as if the record had been written — no fatal error
surfaces — while the store keeps the OLD record, which the newly issued
refresh token no longer matches. -/
theorem C7_counterexample :
    AuthService.refreshToken dbA storeFail refTok1 5 =
      .ok ({ accessToken := (AuthService.generateTokens aliceResp 5).accessToken,
             refreshToken :=
               (AuthService.generateTokens aliceResp 5).refreshToken,
             expiresIn := ACCESS_TOKEN_EXPIRES_IN, user := aliceResp },
           storeFail) ∧
    storeFail.lookup (refreshTokenKey uuid1) = some (.tok refTok1) ∧
    (AuthService.generateTokens aliceResp 5).refreshToken ≠ refTok1 :=
  ⟨rfl, rfl, by decide⟩

/-- Helper: when the backend rejects writes, findById leaves the store
untouched. -/
theorem findById_store_id_of_failSet (db : Db) (s : Store) (id : String)
    (uo : Option UserResp) (s1 : Store) (hf : s.failSet = true)
    (h : UserService.findById db s id = .ok (uo, s1)) : s1 = s := by
  rcases findById_shape db s id uo s1 h with ⟨-, hc⟩
  rcases hc with ⟨u2, -, -, hs⟩ | ⟨-, -, -, hs⟩ | ⟨row, -, -, -, hs⟩
  · exact hs
  · exact hs
  · rw [hs]
    exact set_id_of_failSet s _ _ _ hf

/-- Helper: when the backend rejects writes, create leaves the store
untouched. -/
theorem create_store_id_of_failSet (db : Db) (s : Store) (dto : RegisterDto)
    (newId : String) (u : UserResp) (db1 : Db) (s1 : Store)
    (hf : s.failSet = true)
    (h : UserService.create db s dto newId = .ok (u, db1, s1)) : s1 = s := by
  unfold UserService.create at h
  split at h
  · cases h
  · split at h
    · cases h
    · split at h
      · cases h
      · split at h
        · cases h
        · simp at h
          rcases h with ⟨-, -, hs1⟩
          rw [← hs1]
          exact set_id_of_failSet s _ _ _ hf

/-- C7 amended: a Refresh Record write failure is caught and logged
inside CacheService.set and never surfaces: whenever the cache backend
rejects writes, register, login and refresh that otherwise succeed
return the new token pair with the store left exactly as it was, as if
the write had succeeded. -/
theorem C7_write_failure_swallowed (db : Db) (s : Store)
    (hfail : s.failSet = true) :
    (∀ email pw now r s1, AuthService.login db s email pw now = .ok (r, s1) →
       s1 = s) ∧
    (∀ t now r s1, AuthService.refreshToken db s t now = .ok (r, s1) →
       s1 = s) ∧
    (∀ dto newId now r db1 s1,
       AuthService.register db s dto newId now = .ok (r, db1, s1) → s1 = s) := by
  refine ⟨?_, ?_, ?_⟩
  · intro email pw now r s1 h
    rcases login_ok_shape db s email pw now r s1 h with
      ⟨user, s1b, -, hfind, -, -, -, hs1⟩
    have hb : s1b = s := findById_store_id_of_failSet db s _ _ _ hfail hfind
    subst hs1
    unfold AuthService.storeRefreshToken
    rw [hb]
    exact set_id_of_failSet s _ _ _ hfail
  · intro t now r s1 h
    rcases refresh_ok_shape db s t now r s1 h with
      ⟨-, -, -, s1b, hfind, -, -, -, -, hs1⟩
    have hb : s1b = s := findById_store_id_of_failSet db s _ _ _ hfail hfind
    subst hs1
    unfold AuthService.storeRefreshToken
    rw [hb]
    exact set_id_of_failSet s _ _ _ hfail
  · intro dto newId now r db1 s1 h
    rcases register_ok_shape db s dto newId now r db1 s1 h with
      ⟨s1b, hcreate, -, hs1⟩
    have hb : s1b = s :=
      create_store_id_of_failSet db s dto newId r.user db1 s1b hfail hcreate
    subst hs1
    unfold AuthService.storeRefreshToken
    rw [hb]
    exact set_id_of_failSet s _ _ _ hfail

/-- C7 witness: the concrete refresh against the write-failing store
succeeds and, by the amended theorem, leaves the store unchanged. -/
theorem C7_witness :
    AuthService.refreshToken dbA storeFail refTok1 5 =
      .ok ({ accessToken := (AuthService.generateTokens aliceResp 5).accessToken,
             refreshToken :=
               (AuthService.generateTokens aliceResp 5).refreshToken,
             expiresIn := ACCESS_TOKEN_EXPIRES_IN, user := aliceResp },
           storeFail) ∧
    storeFail = storeFail := by
  constructor
  · rfl
  · exact (C7_write_failure_swallowed dbA storeFail rfl).2.1 refTok1 5
      { accessToken := (AuthService.generateTokens aliceResp 5).accessToken,
        refreshToken := (AuthService.generateTokens aliceResp 5).refreshToken,
        expiresIn := ACCESS_TOKEN_EXPIRES_IN, user := aliceResp }
      storeFail rfl

end AiBackend
